import Mathlib

/-!
Shallow embedding of the WebSecurity browser client (SecureScan frontend).

The embedded code:
* `src/frontend/src/services/api.ts` — axios request/response interceptors
  (bearer-token injection, 401 refresh-and-retry-once);
* `src/frontend/src/pages/ScanDetail.tsx` — scan polling (`refetchInterval`)
  and the vulnerability query gate (`enabled`);
* `src/frontend/src/pages/Login.tsx` — error-message extraction in
  `handleSubmit`'s catch block;
* `NewScan` (`src/unnamed/part_001`) — URL normalisation/validation in
  `handleSubmit`;
* `ScanHistory` (`src/unnamed/part_000`) — the pagination window.

The session store (`stores/authStore.ts`) is imported by the sources but its
implementation is not in the repository snapshot; its operations are modelled
from the spec's Session data model.
-/

namespace WebSecurity

/-! ### Session store

Modelled from the spec: `stores/authStore.ts` is not in the snapshot.
Spec §3: Session = { accessToken, refreshToken, user }; created on login,
mutated on token refresh (`setTokens`), destroyed on logout. -/

structure AuthStore where
  accessToken : Option String
  refreshToken : Option String
  deriving DecidableEq, Repr

/-- Modelled from the spec: `setTokens` of the session store persists the new
access/refresh token pair ("mutated on token refresh"). -/
def setTokens (_s : AuthStore) (a r : String) : AuthStore :=
  { accessToken := some a, refreshToken := some r }

/-- Modelled from the spec: `logout` tears the session down
("destroyed on logout or irrecoverable refresh failure"). -/
def logout (_s : AuthStore) : AuthStore :=
  { accessToken := none, refreshToken := none }

/-! ### API client (`services/api.ts`)

A request config carries the `Authorization` header (if any) and the `_retry`
marker the response interceptor sets on first 401. -/

structure Request where
  auth : Option String
  retry : Bool
  deriving DecidableEq, Repr

/-- `api.interceptors.request.use` (api.ts lines 15–24): if the store holds an
access token, set `Authorization: Bearer <token>`; otherwise leave the config
untouched. -/
def reqInterceptor (store : AuthStore) (req : Request) : Request :=
  match store.accessToken with
  | some t => { req with auth := some ("Bearer " ++ t) }
  | none => req

/-- The error an axios call rejects with: the HTTP status of the response when
one was received (`none` = network failure), and the request config. -/
structure ApiError where
  status : Option Nat
  config : Request
  deriving DecidableEq, Repr

inductive Outcome where
  | success (sent : Request)
  | failure (e : ApiError)
  deriving DecidableEq, Repr

/-- The backend as an oracle: `respond` gives the HTTP status returned for a
request as sent (`none` = no response), `refresh` is `POST /auth/refresh`
(`some` = new token pair, `none` = refresh call fails). -/
structure Server where
  respond : Request → Option Nat
  refresh : String → Option (String × String)

@[simp] theorem reqInterceptor_retry (store : AuthStore) (req : Request) :
    (reqInterceptor store req).retry = req.retry := by
  unfold reqInterceptor
  cases store.accessToken <;> rfl

/-- One client call `api(req)` with both interceptors (api.ts lines 15–59),
returning the store after the call, the requests sent (in order), the refresh
tokens sent to `/auth/refresh` (in order), and the outcome.

Mirrors the response interceptor: on a 401 whose config is not yet marked
`_retry`, mark it, then — if a refresh token is present — call refresh; on
refresh success persist both tokens (`setTokens`), set the config's
Authorization to the new bearer token and re-issue via `api(originalRequest)`
(which runs the request interceptor again); on refresh failure or missing
refresh token, `logout()` and fall through to `Promise.reject(error)` with the
original 401 error (its config already marked). Every other non-2xx outcome is
rejected unchanged. -/
def apiSend (server : Server) (store : AuthStore) (req : Request) :
    AuthStore × List Request × List String × Outcome :=
  match server.respond (reqInterceptor store req) with
  | some status =>
    if 200 ≤ status ∧ status < 300 then
      (store, [reqInterceptor store req], [],
        Outcome.success (reqInterceptor store req))
    else if _h : status = 401 ∧ (reqInterceptor store req).retry = false then
      match store.refreshToken with
      | some rt =>
        match server.refresh rt with
        | some (a, r) =>
          let rest := apiSend server (setTokens store a r)
            { reqInterceptor store req with
              retry := true, auth := some ("Bearer " ++ a) }
          (rest.1, reqInterceptor store req :: rest.2.1,
            rt :: rest.2.2.1, rest.2.2.2)
        | none =>
          (logout store, [reqInterceptor store req], [rt],
            Outcome.failure
              ⟨some 401, { reqInterceptor store req with retry := true }⟩)
      | none =>
        (logout store, [reqInterceptor store req], [],
          Outcome.failure
            ⟨some 401, { reqInterceptor store req with retry := true }⟩)
    else
      (store, [reqInterceptor store req], [],
        Outcome.failure ⟨some status, reqInterceptor store req⟩)
  | none =>
    (store, [reqInterceptor store req], [],
      Outcome.failure ⟨none, reqInterceptor store req⟩)
termination_by (if req.retry then 0 else 1)
decreasing_by
  simp_all [reqInterceptor_retry]

/-! ### Scan polling and the vulnerability query (`pages/ScanDetail.tsx`) -/

/-- `type ScanStatus` (types.ts). -/
inductive ScanStatus where
  | pending | running | completed | failed | cancelled
  deriving DecidableEq, Repr

/-- The part of the `Scan` resource the queries in `ScanDetail.tsx` consult. -/
structure ScanData where
  status : ScanStatus
  deriving DecidableEq, Repr

/-- `refetchInterval` of the scan query (ScanDetail.tsx lines 35–40):
`(data) => data?.status === 'running' || data?.status === 'pending' ? 3000 : false`
— `some n` is an interval of `n` milliseconds, `none` is `false` (no refetch).
When `data` is `undefined`, both optional-chained comparisons are false. -/
def refetchInterval (data : Option ScanData) : Option Nat :=
  match data with
  | some d =>
    if d.status = ScanStatus.running ∨ d.status = ScanStatus.pending then
      some 3000
    else none
  | none => none

/-- `enabled` of the vulnerability query (ScanDetail.tsx line 46):
`scan?.status === 'completed'`. -/
def vulnQueryEnabled (scan : Option ScanData) : Bool :=
  match scan with
  | some d => d.status = ScanStatus.completed
  | none => false

/-- The observations the polling consumer makes, given the successive states of
the scan resource on the server: the initial fetch always observes the first
state; after each observation the query refetches (observing the next state)
exactly when `refetchInterval` returns an interval for the observed data. -/
def observedPolls : List ScanData → List ScanData
  | [] => []
  | d :: rest =>
    d :: (match refetchInterval (some d) with
          | some _ => observedPolls rest
          | none => [])

/-- Spec §4.2 / glossary: a terminal status is `completed`, `failed` or
`cancelled`. -/
def terminalStatus (s : ScanStatus) : Bool :=
  match s with
  | ScanStatus.completed | ScanStatus.failed | ScanStatus.cancelled => true
  | ScanStatus.pending | ScanStatus.running => false

/-- The polling behaviour the spec describes, written from its words: observe
states until the first terminal observation inclusive, then cease. -/
def specPolls : List ScanData → List ScanData
  | [] => []
  | d :: rest => d :: (if terminalStatus d.status then [] else specPolls rest)

/-! ### Login error surfacing (`pages/Login.tsx`, lines 47–69) -/

/-- An entry of a structured validation `detail` list; the handler reads its
`msg` field. -/
structure ErrEntry where
  msg : String
  deriving DecidableEq, Repr

/-- The shape of `error.response.data?.detail`. -/
inductive Detail where
  | str (s : String)
  | arr (entries : List ErrEntry)
  | absent
  deriving DecidableEq, Repr

/-- The error the login call rejects with: whether a response was received
(and its status and `detail`), or only a request was made (network failure). -/
structure LoginFailure where
  hasResponse : Bool
  status : Nat
  detail : Detail
  hasRequest : Bool
  deriving DecidableEq, Repr

/-- The message computed in `handleSubmit`'s catch block (Login.tsx lines
50–67): start from the fallback; if a response exists, a string `detail`
replaces it, a list `detail` is mapped to its `msg`s joined with `', '`, and a
500 status overrides either; otherwise a request-only error gets the network
message. -/
def loginErrorMessage (e : LoginFailure) : String :=
  if e.hasResponse then
    let fromDetail :=
      match e.detail with
      | Detail.str s => s
      | Detail.arr entries =>
        String.intercalate ", " (entries.map ErrEntry.msg)
      | Detail.absent => "로그인에 실패했습니다"
    if e.status = 500 then
      "서버 오류가 발생했습니다. 잠시 후 다시 시도해주세요."
    else fromDetail
  else if e.hasRequest then
    "서버에 연결할 수 없습니다. 네트워크 연결을 확인해주세요."
  else "로그인에 실패했습니다"

/-- The user-visible renderings the catch block produces: a single
`toast.error(message)` call (Login.tsx line 69). -/
def loginErrorToasts (e : LoginFailure) : List String :=
  [loginErrorMessage e]

/-! ### New-scan URL normalisation (`NewScan` handleSubmit, lines 64–84) -/

/-- JS `String.prototype.startsWith`, as a code-point prefix test. -/
def jsStartsWith (s pre : String) : Bool :=
  List.isPrefixOf pre.toList s.toList

/-- Lines 65–68: prepend `https://` when the entered URL starts with neither
`http://` nor `https://`. -/
def normalizeUrl (url : String) : String :=
  if jsStartsWith url "http://" || jsStartsWith url "https://" then url
  else "https://" ++ url

/-- `handleSubmit` of NewScan up to the `scanAPI.create` call, with the
runtime's `new URL(...)` parser abstracted as a predicate `isValidURL`:
returns `some target_url` when the request is issued and `none` when the
handler returns early (empty URL, terms not agreed, or URL parse failure). -/
def submitScanTarget (isValidURL : String → Bool)
    (url : String) (agreed : Bool) : Option String :=
  if url = "" then none
  else if agreed = false then none
  else
    if isValidURL (normalizeUrl url) then some (normalizeUrl url) else none

/-! ### Pagination window (`ScanHistory`, lines 119–129) -/

/-- The `pageNum` computed for slot `i` of the pagination window
(ScanHistory lines 120–129). -/
def pageNum (page totalPages i : Nat) : Nat :=
  if totalPages ≤ 5 then i + 1
  else if page ≤ 3 then i + 1
  else if totalPages - 2 ≤ page then totalPages - 4 + i
  else page - 2 + i

/-- The pagination window: `[...Array(Math.min(5, totalPages))].map((_, i) =>
pageNum)` (ScanHistory line 119). -/
def pageWindow (page totalPages : Nat) : List Nat :=
  (List.range (min 5 totalPages)).map (pageNum page totalPages)

/-! ### Helper lemmas -/

theorem reqInterceptor_of_some (store : AuthStore) (req : Request) (t : String)
    (h : store.accessToken = some t) :
    reqInterceptor store req = { req with auth := some ("Bearer " ++ t) } := by
  unfold reqInterceptor
  rw [h]

theorem reqInterceptor_of_none (store : AuthStore) (req : Request)
    (h : store.accessToken = none) :
    reqInterceptor store req = req := by
  unfold reqInterceptor
  rw [h]

/-- A call whose config is already marked `_retry` never enters the refresh
branch: it sends exactly one request, makes no refresh call, leaves the store
unchanged, and resolves or rejects with the server's answer as is. -/
theorem apiSend_of_retry (server : Server) (store : AuthStore) (req : Request)
    (h : req.retry = true) :
    apiSend server store req =
      (store, [reqInterceptor store req], [],
        match server.respond (reqInterceptor store req) with
        | some status =>
          if 200 ≤ status ∧ status < 300 then
            Outcome.success (reqInterceptor store req)
          else Outcome.failure ⟨some status, reqInterceptor store req⟩
        | none => Outcome.failure ⟨none, reqInterceptor store req⟩) := by
  rw [apiSend]
  rcases hr : server.respond (reqInterceptor store req) with _ | status
  · rfl
  · simp only
    split
    · rfl
    · rw [dif_neg]
      simp [reqInterceptor_retry, h]

/-! ### Claims about the API client -/

/-- C1: a request that receives a 401 is retried at most once. For any server
behaviour, a call whose config is not yet marked `_retry` sends at most two
requests and at most one refresh call; and against a server that answers 401
to every request (any sequence of 401s), the call rejects with a 401 error
whose config is marked `_retry` — the second 401 propagates with no further
refresh or retry. -/
theorem c1_retry_at_most_once (server : Server) (store : AuthStore)
    (req : Request) (h : req.retry = false) :
    (apiSend server store req).2.1.length ≤ 2 ∧
    (apiSend server store req).2.2.1.length ≤ 1 ∧
    ((∀ q, server.respond q = some 401) →
      ∃ e, (apiSend server store req).2.2.2 = Outcome.failure e ∧
        e.status = some 401 ∧ e.config.retry = true) := by
  obtain ⟨acc, rtok⟩ := store
  rw [apiSend]
  rcases hr : server.respond (reqInterceptor ⟨acc, rtok⟩ req) with _ | status
  · refine ⟨by simp, by simp, fun hall => ?_⟩
    rw [hall] at hr
    cases hr
  · simp only
    split
    · rename_i hsucc
      refine ⟨by simp, by simp, fun hall => ?_⟩
      rw [hall] at hr
      cases hr
      exact absurd hsucc (by omega)
    · split
      · rcases rtok with _ | rt
        · dsimp only
          exact ⟨by simp, by simp, fun _ => ⟨_, rfl, rfl, rfl⟩⟩
        · dsimp only
          rcases href : server.refresh rt with _ | ⟨a, r⟩
          · dsimp only
            exact ⟨by simp, by simp, fun _ => ⟨_, rfl, rfl, rfl⟩⟩
          · dsimp only
            rw [apiSend_of_retry _ _ _ rfl]
            refine ⟨by simp, by simp, fun hall => ?_⟩
            dsimp only
            rw [hall]
            dsimp only
            rw [if_neg (by omega)]
            exact ⟨_, rfl, rfl, by simp [reqInterceptor_retry]⟩
      · refine ⟨by simp, by simp, fun hall => ?_⟩
        rename_i hcond
        rw [hall] at hr
        cases hr
        exact absurd ⟨rfl, by rw [reqInterceptor_retry, h]⟩ hcond

/-- C2: on a 401 with a refresh token in the store, whose refresh call
succeeds with tokens `(a, r)`: both new tokens are persisted into the store,
the original request is re-issued exactly once (two requests total) carrying
`Bearer a`, and every request issued through the interceptor after the
refresh carries the new access token. -/
theorem c2_refresh_success (server : Server) (store : AuthStore)
    (req : Request) (rt a r : String) (h : req.retry = false)
    (h401 : server.respond (reqInterceptor store req) = some 401)
    (hrt : store.refreshToken = some rt)
    (href : server.refresh rt = some (a, r)) :
    (apiSend server store req).1 =
      { accessToken := some a, refreshToken := some r } ∧
    (∃ q, (apiSend server store req).2.1 = [reqInterceptor store req, q] ∧
      q.auth = some ("Bearer " ++ a) ∧ q.retry = true) ∧
    (apiSend server store req).2.2.1 = [rt] ∧
    (∀ p : Request, (reqInterceptor (apiSend server store req).1 p).auth =
      some ("Bearer " ++ a)) := by
  rw [apiSend, h401]
  dsimp only
  rw [if_neg (by omega),
    dif_pos ⟨rfl, by rw [reqInterceptor_retry]; exact h⟩, hrt]
  dsimp only
  rw [href]
  dsimp only
  rw [apiSend_of_retry _ _ _ rfl]
  refine ⟨rfl, ⟨_, rfl, ?_, rfl⟩, rfl, fun p => ?_⟩
  · rw [reqInterceptor_of_some _ _ a rfl]
  · rw [reqInterceptor_of_some _ _ a rfl]

/-- C3: on a 401 with no refresh token, or whose refresh call fails, the
session is cleared (both tokens removed) and the original 401 error of the
triggering request — its config marked `_retry`, not a refresh error — is
propagated to the caller. -/
theorem c3_refresh_failure (server : Server) (store : AuthStore)
    (req : Request) (h : req.retry = false)
    (h401 : server.respond (reqInterceptor store req) = some 401)
    (hfail : store.refreshToken = none ∨
      ∃ rt, store.refreshToken = some rt ∧ server.refresh rt = none) :
    (apiSend server store req).1 =
      { accessToken := none, refreshToken := none } ∧
    (apiSend server store req).2.2.2 =
      Outcome.failure
        ⟨some 401, { reqInterceptor store req with retry := true }⟩ := by
  rw [apiSend, h401]
  dsimp only
  rw [if_neg (by omega),
    dif_pos ⟨rfl, by rw [reqInterceptor_retry]; exact h⟩]
  rcases hfail with hnone | ⟨rt, hrt, href⟩
  · rw [hnone]
    exact ⟨rfl, rfl⟩
  · rw [hrt]
    dsimp only
    rw [href]
    exact ⟨rfl, rfl⟩

/-- C4: the request interceptor sets `Authorization: Bearer <token>` exactly
when the store holds an access token at send time; with no access token it
leaves the request config untouched (adds no header). -/
theorem c4_bearer_injection (store : AuthStore) (req : Request) :
    (∀ t, store.accessToken = some t →
      reqInterceptor store req = { req with auth := some ("Bearer " ++ t) }) ∧
    (store.accessToken = none → reqInterceptor store req = req) :=
  ⟨fun t ht => reqInterceptor_of_some store req t ht,
    fun hn => reqInterceptor_of_none store req hn⟩

/-! Concrete scenario used by the API-client witnesses. -/

def wStore : AuthStore := { accessToken := some "a1", refreshToken := some "r1" }

def wReq : Request := { auth := none, retry := false }

/-- A backend that answers 401 to every request and grants refreshes. -/
def wServer401 : Server :=
  { respond := fun _ => some 401, refresh := fun _ => some ("a2", "r2") }

/-- A backend that answers 401 to every request and denies refreshes. -/
def wServerRefreshFail : Server :=
  { respond := fun _ => some 401, refresh := fun _ => none }

theorem c1_retry_at_most_once_witness :
    (apiSend wServer401 wStore wReq).2.1.length ≤ 2 ∧
    (apiSend wServer401 wStore wReq).2.2.1.length ≤ 1 ∧
    ∃ e, (apiSend wServer401 wStore wReq).2.2.2 = Outcome.failure e ∧
      e.status = some 401 ∧ e.config.retry = true := by
  obtain ⟨h1, h2, h3⟩ := c1_retry_at_most_once wServer401 wStore wReq rfl
  exact ⟨h1, h2, h3 (fun _ => rfl)⟩

theorem c2_refresh_success_witness :
    (apiSend wServer401 wStore wReq).1 =
      { accessToken := some "a2", refreshToken := some "r2" } ∧
    (apiSend wServer401 wStore wReq).2.2.1 = ["r1"] ∧
    (reqInterceptor (apiSend wServer401 wStore wReq).1
      { auth := none, retry := false }).auth = some ("Bearer " ++ "a2") := by
  obtain ⟨hstore, _, hrefs, hall⟩ :=
    c2_refresh_success wServer401 wStore wReq "r1" "a2" "r2" rfl rfl rfl rfl
  exact ⟨hstore, hrefs, hall _⟩

theorem c3_refresh_failure_witness :
    (apiSend wServerRefreshFail wStore wReq).1 =
      { accessToken := none, refreshToken := none } ∧
    (apiSend wServerRefreshFail wStore wReq).2.2.2 =
      Outcome.failure
        ⟨some 401, { reqInterceptor wStore wReq with retry := true }⟩ := by
  exact c3_refresh_failure wServerRefreshFail wStore wReq rfl rfl
    (Or.inr ⟨"r1", rfl, rfl⟩)

theorem c4_bearer_injection_witness :
    reqInterceptor wStore wReq = { wReq with auth := some ("Bearer " ++ "a1") } ∧
    reqInterceptor { accessToken := none, refreshToken := none } wReq = wReq := by
  obtain ⟨hsome, _⟩ := c4_bearer_injection wStore wReq
  obtain ⟨_, hnone⟩ :=
    c4_bearer_injection { accessToken := none, refreshToken := none } wReq
  exact ⟨hsome "a1" rfl, hnone rfl⟩

/-! ### Claims about polling and the vulnerability gate -/

/-- C5: for any sequence of observed scan states, the consumer's observations
are exactly the states up to and including the first terminal one (polling
ceases there and does not resume); while the observed status is non-terminal
(`pending` or `running`) the refetch interval is exactly 3000 ms, and a
terminal observation yields no interval. -/
theorem c5_polling_stops_at_terminal (ds : List ScanData) :
    observedPolls ds = specPolls ds ∧
    (∀ d : ScanData, terminalStatus d.status = false →
      refetchInterval (some d) = some 3000) ∧
    (∀ d : ScanData, terminalStatus d.status = true →
      refetchInterval (some d) = none) := by
  refine ⟨?_, ?_, ?_⟩
  · induction ds with
    | nil => rfl
    | cons d rest ih =>
      rw [observedPolls, specPolls]
      rcases d with ⟨s⟩
      cases s <;> simp [refetchInterval, terminalStatus, ih]
  · rintro ⟨s⟩ h
    cases s <;> simp_all [refetchInterval, terminalStatus]
  · rintro ⟨s⟩ h
    cases s <;> simp_all [refetchInterval, terminalStatus]

/-- The status sequence of the spec's example poll: pending → running →
completed, followed by further states a resumed poller would see. -/
def wPollSeq : List ScanData :=
  [⟨ScanStatus.pending⟩, ⟨ScanStatus.running⟩, ⟨ScanStatus.completed⟩,
    ⟨ScanStatus.running⟩]

theorem c5_polling_stops_at_terminal_witness :
    observedPolls wPollSeq = specPolls wPollSeq ∧
    refetchInterval (some ⟨ScanStatus.pending⟩) = some 3000 ∧
    refetchInterval (some ⟨ScanStatus.completed⟩) = none ∧
    observedPolls wPollSeq =
      [⟨ScanStatus.pending⟩, ⟨ScanStatus.running⟩, ⟨ScanStatus.completed⟩] := by
  obtain ⟨h1, h2, h3⟩ := c5_polling_stops_at_terminal wPollSeq
  exact ⟨h1, h2 ⟨ScanStatus.pending⟩ rfl, h3 ⟨ScanStatus.completed⟩ rfl, rfl⟩

/-- C6: the vulnerability query is enabled exactly when the observed scan
exists and its status is `completed`; for `failed`, `pending`, `running`,
`cancelled` or no data, the fetch is never issued. -/
theorem c6_vuln_fetch_gated_on_completed (scan : Option ScanData) :
    vulnQueryEnabled scan = true ↔ scan = some ⟨ScanStatus.completed⟩ := by
  rcases scan with _ | ⟨s⟩
  · simp [vulnQueryEnabled]
  · cases s
    all_goals simp [vulnQueryEnabled]

/-! ### Claims about error surfacing (Login / NewScan) -/

/-- The input refuting C8: a response whose validation `detail` has two
entries. -/
def multiDetailFailure : LoginFailure :=
  { hasResponse := true, status := 422,
    detail := Detail.arr [⟨"m1"⟩, ⟨"m2"⟩], hasRequest := false }

/-- C8 fails on the code: two validation entries are surfaced as ONE toast
whose message joins them with ", ", not as one rendering per entry. -/
theorem c8_counterexample :
    loginErrorToasts multiDetailFailure = ["m1, m2"] ∧
    (loginErrorToasts multiDetailFailure).length ≠ 2 := by
  exact ⟨by decide, by decide⟩

/-- C8 (amended): a failed request with a list-shaped validation `detail`
(and a non-500 status) is surfaced as a single user-visible message: each
entry's `msg` is individually extracted, and all of them are joined with
", " into one toast. -/
theorem c8_validation_details_joined (entries : List ErrEntry) (status : Nat)
    (hreq : Bool) (h : status ≠ 500) :
    loginErrorToasts
      { hasResponse := true, status := status,
        detail := Detail.arr entries, hasRequest := hreq } =
      [String.intercalate ", " (entries.map ErrEntry.msg)] := by
  simp [loginErrorToasts, loginErrorMessage, h]

theorem c8_validation_details_joined_witness :
    loginErrorToasts multiDetailFailure = ["m1, m2"] :=
  (c8_validation_details_joined [⟨"m1"⟩, ⟨"m2"⟩] 422 false (by decide)).trans
    (by decide)

/-! ### Claim about new-scan URL handling -/

/-- C9: for a non-empty URL starting with neither `http://` nor `https://`,
`https://` is prepended before validation and submission; a scan-creation
request is issued only with the normalised URL and only when it parses as
valid (for the runtime's URL parser, abstracted as `isValidURL`); an input
whose normalised form fails to parse produces no request. -/
theorem c9_url_normalisation (isValidURL : String → Bool) (url : String)
    (agreed : Bool) :
    (url ≠ "" → jsStartsWith url "http://" = false →
      jsStartsWith url "https://" = false →
      normalizeUrl url = "https://" ++ url) ∧
    (∀ t, submitScanTarget isValidURL url agreed = some t →
      t = normalizeUrl url ∧ isValidURL t = true) ∧
    (isValidURL (normalizeUrl url) = false →
      submitScanTarget isValidURL url agreed = none) := by
  refine ⟨fun _ h1 h2 => ?_, fun t ht => ?_, fun hv => ?_⟩
  · unfold normalizeUrl
    rw [h1, h2]
    rfl
  · unfold submitScanTarget at ht
    split_ifs at ht with h1 h2 h3
    have ht' : normalizeUrl url = t := by simpa using ht
    exact ⟨ht'.symm, ht' ▸ h3⟩
  · unfold submitScanTarget
    split_ifs with h1 h2 h3
    · rfl
    · rfl
    · exact absurd h3 (by rw [hv]; exact Bool.false_ne_true)
    · rfl

theorem c9_url_normalisation_witness :
    normalizeUrl "example.com" = "https://" ++ "example.com" ∧
    submitScanTarget (fun s => decide (s.length ≤ 30)) "example.com" true =
      some (normalizeUrl "example.com") ∧
    decide ((normalizeUrl "example.com").length ≤ 30) = true ∧
    submitScanTarget (fun _ => false) "example.com" true = none := by
  refine ⟨(c9_url_normalisation (fun _ => false) "example.com" true).1
      (by decide) (by decide) (by decide), by decide, ?_,
    (c9_url_normalisation (fun _ => false) "example.com" true).2.2 rfl⟩
  have h := (c9_url_normalisation (fun s => decide (s.length ≤ 30))
    "example.com" true).2.1 (normalizeUrl "example.com") (by decide)
  exact h.2

/-! ### Claim about the pagination window -/

theorem range'_consecutive (n : ℕ) :
    ∀ s, List.Chain' (fun a b => b = a + 1) (List.range' s n) := by
  induction n with
  | zero =>
    intro s
    simp
  | succ m ih =>
    intro s
    rw [List.range'_succ]
    cases m with
    | zero => simp
    | succ k =>
      rw [List.range'_succ]
      exact List.chain'_cons.mpr
        ⟨rfl, by rw [← List.range'_succ]; exact ih (s + 1)⟩

/-- C10: for any current page `1 ≤ p ≤ totalPages`, the pagination window
has `min 5 totalPages` entries, every entry lies in `[1, totalPages]`, the
entries are consecutive, and `p` is among them. -/
theorem c10_page_window (p tp : ℕ) (h1 : 1 ≤ p) (h2 : p ≤ tp) :
    (pageWindow p tp).length = min 5 tp ∧
    (∀ n ∈ pageWindow p tp, 1 ≤ n ∧ n ≤ tp) ∧
    List.Chain' (fun a b => b = a + 1) (pageWindow p tp) ∧
    p ∈ pageWindow p tp := by
  obtain ⟨s, hw, hbounds⟩ : ∃ s, pageWindow p tp = List.range' s (min 5 tp) ∧
      (1 ≤ s ∧ s + min 5 tp ≤ tp + 1 ∧ s ≤ p ∧ p < s + min 5 tp) := by
    by_cases hc1 : tp ≤ 5
    · refine ⟨1, ?_, by omega⟩
      rw [pageWindow, List.range'_eq_map_range]
      exact List.map_congr_left fun i _ => by rw [pageNum, if_pos hc1]; omega
    · by_cases hc3 : p ≤ 3
      · refine ⟨1, ?_, by omega⟩
        rw [pageWindow, List.range'_eq_map_range]
        exact List.map_congr_left fun i _ => by
          rw [pageNum, if_neg hc1, if_pos hc3]; omega
      · by_cases hc4 : tp - 2 ≤ p
        · refine ⟨tp - 4, ?_, by omega⟩
          rw [pageWindow, List.range'_eq_map_range]
          exact List.map_congr_left fun i _ => by
            rw [pageNum, if_neg hc1, if_neg hc3, if_pos hc4]
        · refine ⟨p - 2, ?_, by omega⟩
          rw [pageWindow, List.range'_eq_map_range]
          exact List.map_congr_left fun i _ => by
            rw [pageNum, if_neg hc1, if_neg hc3, if_neg hc4]
  rw [hw]
  refine ⟨List.length_range' _ _ _, fun n hn => ?_, range'_consecutive _ s, ?_⟩
  · rw [List.mem_range'_1] at hn
    omega
  · rw [List.mem_range'_1]
    omega

theorem c10_page_window_witness :
    (pageWindow 7 9).length = min 5 9 ∧ 7 ∈ pageWindow 7 9 := by
  obtain ⟨hlen, _, _, hmem⟩ := c10_page_window 7 9 (by decide) (by decide)
  exact ⟨hlen, hmem⟩

end WebSecurity
